import Mathlib

/-!
Shallow embedding of the habit-backend analytics code (app/services and
app/routes) and proofs about the spec's claims.  Python floats are modelled
as rationals (reals where a square root is required), dates as integers
(day numbers), and database query results as explicit lists.
-/

namespace HabitBackend

/-- One row of the `daily_logs` table (the fields the engines read). -/
structure DailyLog where
  user_id : ℕ
  log_date : ℤ
  work_hours : ℚ
  deep_work_hours : ℚ
  tasks_completed : ℕ
  tasks_planned : ℕ
  interruptions : ℕ
  focus_score : ℚ
  energy_score : ℚ
  stress_level : ℚ
  sleep_hours : ℚ
  exercise_minutes : ℚ
  productivity_score : Option ℚ
  deriving DecidableEq

/-- `statistics.mean` over rationals. -/
def mean (xs : List ℚ) : ℚ := xs.sum / (xs.length : ℚ)

/-- Python `l.productivity_score or 50`: `None` and the falsy `0` both
become `50`. -/
def pyOr50 (p : Option ℚ) : ℚ :=
  match p with
  | none => 50
  | some v => if v = 0 then 50 else v

/-- Round to the nearest integer, ties to the even integer (the rounding
used by Python `round` and `format`). -/
def roundHalfEven (q : ℚ) : ℤ :=
  let f := q - ⌊q⌋
  if f < 1/2 then ⌊q⌋
  else if 1/2 < f then ⌊q⌋ + 1
  else if ⌊q⌋ % 2 = 0 then ⌊q⌋ else ⌊q⌋ + 1

/-- Python `round(x, 1)`. -/
def pyRound1 (q : ℚ) : ℚ := (roundHalfEven (10 * q) : ℚ) / 10

/-- Python `f-string` formatting with `:.1f` (one decimal place). -/
def fmt1 (x : ℚ) : String :=
  let n := roundHalfEven (10 * x)
  let a := n.natAbs
  (if n < 0 then "-" else "") ++ toString (a / 10) ++ "." ++ toString (a % 10)

/-- One entry of the burnout result's `risk_factors` list. -/
structure RiskFactor where
  factor : String
  severity : String
  score : ℚ
  deriving DecidableEq

/-- The dict returned by `calculate_burnout_risk`. -/
structure BurnoutResult where
  risk_score : ℚ
  risk_category : String
  workload_trend : ℚ
  energy_decline : ℚ
  sleep_deficit : ℚ
  stress_score : ℚ
  productivity_drop : ℚ
  trend_direction : String
  trend_change : ℚ
  recommendations : List String
  risk_factors : List RiskFactor
  deriving DecidableEq

/-- `_generate_burnout_recommendations` from app/services/burnout.py. -/
def generate_burnout_recommendations (workload_trend energy_decline
    sleep_deficit stress_score productivity_drop : ℚ) (risk_category : String)
    (recent_sleep recent_stress : ℚ) : List String :=
  let recommendations :=
    (if risk_category = "critical" ∨ risk_category = "high" then
      ["Consider taking a recovery day soon — your signals indicate significant fatigue."]
     else []) ++
    (if workload_trend > 40 then
      ["Your work hours are increasing while output is declining. Prioritize deep work over long hours."]
     else []) ++
    (if energy_decline > 30 then
      ["Your energy levels are dropping. Incorporate more breaks and energy-restoring activities."]
     else []) ++
    (if sleep_deficit > 40 then
      ["You’re averaging " ++ fmt1 recent_sleep ++ "h sleep. Aim for 7-8 hours for optimal recovery."]
     else []) ++
    (if stress_score > 60 then
      ["Stress levels are elevated. Try stress-reduction techniques: breathing exercises, walks, or meditation."]
     else []) ++
    (if productivity_drop > 30 then
      ["Productivity is declining. Consider reducing meeting load and protecting deep work blocks."]
     else [])
  if recommendations = [] then
    ["Your metrics look healthy. Keep up your current routine!"]
  else recommendations

/-- `calculate_burnout_risk` from app/services/burnout.py.  `logs` is the
result of the 14-day window query (this user's logs, ordered by date);
`prev_risk` is the `risk_score` of the most recent earlier stored
`BurnoutScore`, when one exists. -/
def calculate_burnout_risk (logs : List DailyLog) (prev_risk : Option ℚ) :
    BurnoutResult :=
  if logs.length < 5 then
    { risk_score := 0
      risk_category := "low"
      workload_trend := 0
      energy_decline := 0
      sleep_deficit := 0
      stress_score := 0
      productivity_drop := 0
      trend_direction := "stable"
      trend_change := 0
      recommendations := []
      risk_factors := [] }
  else
    let mid := logs.length / 2
    let first_half := logs.take mid
    let second_half := logs.drop mid
    let first_work_avg := mean (first_half.map (fun l => l.work_hours))
    let second_work_avg := mean (second_half.map (fun l => l.work_hours))
    let work_increase :=
      max 0 ((second_work_avg - first_work_avg) / max first_work_avg 1)
    let first_prod_avg := mean (first_half.map (fun l => pyOr50 l.productivity_score))
    let second_prod_avg := mean (second_half.map (fun l => pyOr50 l.productivity_score))
    let prod_with_work :=
      work_increase * 50 + max 0 (first_prod_avg - second_prod_avg) * (5/10)
    let workload_trend := min prod_with_work 100
    let first_energy := mean (first_half.map (fun l => l.energy_score))
    let second_energy := mean (second_half.map (fun l => l.energy_score))
    let energy_decline_val := max 0 ((first_energy - second_energy) / 10) * 100
    let energy_decline := min energy_decline_val 100
    let recent_sleep := mean (second_half.map (fun l => l.sleep_hours))
    let sleep_deficit_hours := max 0 (15/2 - recent_sleep)
    let sleep_deficit := min (sleep_deficit_hours / 3 * 100) 100
    let recent_stress := mean (second_half.map (fun l => l.stress_level))
    let stress_score := recent_stress / 10 * 100
    let prod_drop :=
      if first_prod_avg > 0 then
        max 0 ((first_prod_avg - second_prod_avg) / first_prod_avg) * 100
      else 0
    let productivity_drop := min prod_drop 100
    let risk_score0 :=
      workload_trend * (25/100) + energy_decline * (25/100)
        + sleep_deficit * (15/100) + stress_score * (15/100)
        + productivity_drop * (20/100)
    let risk_score := pyRound1 (min (max risk_score0 0) 100)
    let risk_category :=
      if risk_score ≥ 75 then "critical"
      else if risk_score ≥ 50 then "high"
      else if risk_score ≥ 30 then "medium"
      else "low"
    let trend_change :=
      match prev_risk with
      | some p => risk_score - p
      | none => 0
    let trend_direction :=
      match prev_risk with
      | some p =>
        if risk_score - p > 5 then "worsening"
        else if risk_score - p < -5 then "improving"
        else "stable"
      | none => "stable"
    let risk_factors :=
      (if workload_trend > 40 then
        [({ factor := "High Workload", severity := "high", score := workload_trend } : RiskFactor)]
       else []) ++
      (if energy_decline > 30 then
        [({ factor := "Energy Declining", severity := "high", score := energy_decline } : RiskFactor)]
       else []) ++
      (if sleep_deficit > 40 then
        [({ factor := "Sleep Deficit", severity := "medium", score := sleep_deficit } : RiskFactor)]
       else []) ++
      (if stress_score > 60 then
        [({ factor := "High Stress", severity := "high", score := stress_score } : RiskFactor)]
       else []) ++
      (if productivity_drop > 30 then
        [({ factor := "Productivity Declining", severity := "medium", score := productivity_drop } : RiskFactor)]
       else [])
    let recommendations :=
      generate_burnout_recommendations workload_trend energy_decline
        sleep_deficit stress_score productivity_drop risk_category
        recent_sleep recent_stress
    { risk_score := risk_score
      risk_category := risk_category
      workload_trend := pyRound1 workload_trend
      energy_decline := pyRound1 energy_decline
      sleep_deficit := pyRound1 sleep_deficit
      stress_score := pyRound1 stress_score
      productivity_drop := pyRound1 productivity_drop
      trend_direction := trend_direction
      trend_change := pyRound1 trend_change
      recommendations := recommendations
      risk_factors := risk_factors }

/-- The 14-day window query in `calculate_burnout_risk`: this user's logs
with `target_date - 14 ≤ log_date ≤ target_date`, ordered by `log_date`. -/
def queryBurnoutWindow (db : List DailyLog) (uid : ℕ) (target : ℤ) :
    List DailyLog :=
  (db.filter (fun l =>
    l.user_id = uid ∧ target - 14 ≤ l.log_date ∧ l.log_date ≤ target)).insertionSort
    (fun a b => a.log_date ≤ b.log_date)

/-- `calculate_burnout_risk` including its own window query against the
stored table of daily logs. -/
def calculate_burnout_risk_db (db : List DailyLog) (uid : ℕ) (target : ℤ)
    (prev_risk : Option ℚ) : BurnoutResult :=
  calculate_burnout_risk (queryBurnoutWindow db uid target) prev_risk

/-- `calculate_energy_index` from app/services/scoring.py. -/
def calculate_energy_index (log : DailyLog) : ℚ :=
  let energy_base := log.energy_score / 10 * 100
  let sleep_factor := min (log.sleep_hours / 8) 1 * 100
  let stress_penalty := (10 - log.stress_level) / 10 * 100
  let exercise_bonus := min (log.exercise_minutes / 60) 1 * 20
  let index :=
    energy_base * (40/100) + sleep_factor * (30/100)
      + stress_penalty * (20/100) + exercise_bonus * (10/100)
  pyRound1 (min (max index 0) 100)

/-- `statistics.mean` over reals (used by the consistency score, whose
standard deviations force real arithmetic). -/
noncomputable def meanR (xs : List ℝ) : ℝ := xs.sum / (xs.length : ℝ)

/-- `statistics.stdev`: sample standard deviation (divisor `n - 1`). -/
noncomputable def stdev (xs : List ℝ) : ℝ :=
  Real.sqrt ((xs.map (fun x => (x - meanR xs) ^ 2)).sum / ((xs.length : ℝ) - 1))

/-- Round to nearest with ties to even, over the reals. -/
noncomputable def roundHalfEvenR (q : ℝ) : ℤ :=
  if q - ⌊q⌋ < 1/2 then ⌊q⌋
  else if 1/2 < q - ⌊q⌋ then ⌊q⌋ + 1
  else if ⌊q⌋ % 2 = 0 then ⌊q⌋ else ⌊q⌋ + 1

/-- Python `round(x, 1)` over the reals. -/
noncomputable def pyRound1R (q : ℝ) : ℝ := (roundHalfEvenR (10 * q) : ℝ) / 10

/-- The `window` query in `calculate_consistency_score`: this user's logs
with `target_date - window ≤ log_date ≤ target_date`, ordered by date. -/
def queryConsistencyWindow (db : List DailyLog) (uid : ℕ) (target : ℤ)
    (window : ℕ) : List DailyLog :=
  (db.filter (fun l =>
    l.user_id = uid ∧ target - window ≤ l.log_date ∧ l.log_date ≤ target)).insertionSort
    (fun a b => a.log_date ≤ b.log_date)

/-- The main branch of `calculate_consistency_score` (at least 3 logs). -/
noncomputable def consistencyMain (logs : List DailyLog) (window : ℕ) : ℝ :=
  let scores : List ℝ :=
    (logs.filterMap (fun l => l.productivity_score)).map (fun q => (q : ℝ))
  let sleep_times : List ℝ := logs.map (fun l => (l.sleep_hours : ℝ))
  let work_times : List ℝ := logs.map (fun l => (l.work_hours : ℝ))
  let consistency_factors :=
    (if 3 ≤ scores.length then
      [max 0 (100 - stdev scores / 30 * 100)] else []) ++
    (if 3 ≤ sleep_times.length then
      [max 0 (100 - stdev sleep_times / 3 * 100)] else []) ++
    (if 3 ≤ work_times.length then
      [max 0 (100 - stdev work_times / 4 * 100)] else [])
  let streak_bonus := min ((logs.length : ℝ) / (window : ℝ)) 1 * 20
  if consistency_factors = [] then 50
  else pyRound1R (min (max (meanR consistency_factors + streak_bonus) 0) 100)

/-- `calculate_consistency_score` from app/services/scoring.py, including
its own window query (default `window = 7`). -/
noncomputable def calculate_consistency_score (db : List DailyLog) (uid : ℕ)
    (target : ℤ) (window : ℕ := 7) : ℝ :=
  let logs := queryConsistencyWindow db uid target window
  if logs.length < 3 then 50
  else consistencyMain logs window

/-- The fields of a `Goal` row read by `_estimate_success_probability`. -/
structure Goal where
  status : String
  current_value : ℚ
  target_value : ℚ
  start_date : ℤ
  deadline : Option ℤ
  deriving DecidableEq

/-- `_estimate_success_probability` from app/routes/goals.py; `today` is
`date.today()`. -/
def estimate_success_probability (goal : Goal) (today : ℤ) : ℚ :=
  if goal.status = "completed" then 100
  else if goal.target_value ≤ 0 then 50
  else
    let progress := goal.current_value / goal.target_value
    match goal.deadline with
    | none => pyRound1 (progress * 80)
    | some dl =>
      let days_remaining := dl - today
      let total_days := dl - goal.start_date
      if days_remaining ≤ 0 then pyRound1 (progress * 100)
      else if total_days ≤ 0 then 50
      else
        let time_ratio := (days_remaining : ℚ) / (total_days : ℚ)
        let pace := progress / max (1 - time_ratio) (1/100)
        let probability := min (pace * 70 + progress * 30) 99
        pyRound1 (max probability 5)

/-- Modelled from the spec: the success-probability formula exactly as
claim C3 words it — 100 if completed; otherwise `progress × 80` when no
deadline; otherwise `min(pace × 70 + progress × 30, 99)` floored at 5,
with `progress = current_value / target_value`,
`time_ratio = days_remaining / total_days` and
`pace = progress / max(1 − time_ratio, 0.01)`. -/
def successProbability_claim (goal : Goal) (today : ℤ) : ℚ :=
  if goal.status = "completed" then 100
  else
    let progress := goal.current_value / goal.target_value
    match goal.deadline with
    | none => progress * 80
    | some dl =>
      let days_remaining := dl - today
      let total_days := dl - goal.start_date
      let time_ratio := (days_remaining : ℚ) / (total_days : ℚ)
      let pace := progress / max (1 - time_ratio) (1/100)
      max (min (pace * 70 + progress * 30) 99) 5

/-- Modelled from the amended claim C3: the full branch structure of the
estimator, including the `target_value ≤ 0`, `days_remaining ≤ 0` and
`total_days ≤ 0` guards and the 1-decimal rounding. -/
def successProbability_amended (goal : Goal) (today : ℤ) : ℚ :=
  if goal.status = "completed" then 100
  else if goal.target_value ≤ 0 then 50
  else
    let progress := goal.current_value / goal.target_value
    match goal.deadline with
    | none => pyRound1 (progress * 80)
    | some dl =>
      if dl - today ≤ 0 then pyRound1 (progress * 100)
      else if dl - goal.start_date ≤ 0 then 50
      else
        let time_ratio := ((dl - today : ℤ) : ℚ) / ((dl - goal.start_date : ℤ) : ℚ)
        let pace := progress / max (1 - time_ratio) (1/100)
        pyRound1 (max (min (pace * 70 + progress * 30) 99) 5)

/-- One row of the `streaks` table (the fields `_update_checkin_streak`
touches). -/
structure Streak where
  current_count : ℕ
  longest_count : ℕ
  start_date : ℤ
  last_date : Option ℤ
  is_active : Bool
  deriving DecidableEq

/-- `_update_checkin_streak` from app/routes/checkins.py: `s` is the user's
stored "checkin" streak row (if any), `log_date` the submitted check-in
date; returns the stored row after the update. -/
def update_checkin_streak (s : Option Streak) (log_date : ℤ) : Streak :=
  match s with
  | none =>
    { current_count := 1, longest_count := 1, start_date := log_date,
      last_date := some log_date, is_active := true }
  | some streak =>
    let streak1 :=
      match streak.last_date with
      | some last =>
        let days_diff := log_date - last
        if days_diff = 1 then
          { streak with current_count := streak.current_count + 1 }
        else if days_diff > 1 then
          { streak with current_count := 1, start_date := log_date }
        else streak
      | none => streak
    let streak2 := { streak1 with last_date := some log_date }
    if streak2.longest_count < streak2.current_count then
      { streak2 with longest_count := streak2.current_count }
    else streak2

/-- The streak loop in `_update_habit_stats` (app/routes/habits.py): walk
the descending date list, counting while consecutive dates are at most 2
days apart, stopping at the first larger gap. -/
def habitStreakLoop : ℤ → List ℤ → ℕ
  | _, [] => 0
  | prev, d :: rest =>
    if prev - d ≤ 2 then 1 + habitStreakLoop d rest else 0

/-- The `current_streak` recomputed by `_update_habit_stats` from the dates
of the habit's completed logs (sorted descending; `0` stands for the
"no completed logs, streak left untouched at its initial 0" case). -/
def habitCurrentStreak (dates : List ℤ) : ℕ :=
  match dates.insertionSort (fun a b => b ≤ a) with
  | [] => 0
  | d :: rest => 1 + habitStreakLoop d rest

/-- The detector output dict appended to `insights` in `generate_insights`
(app/services/insights.py). -/
structure InsightData where
  category : String
  title : String
  message : String
  insight_type : String
  severity : String
  impact_score : Option ℚ
  confidence : ℚ
  deriving DecidableEq

/-- One row of the `insights` table (the fields the dedup loop touches);
`created_at` is the row-creation time, modelled at day granularity. -/
structure Insight where
  user_id : ℕ
  category : String
  title : String
  message : String
  insight_type : String
  severity : String
  impact_score : Option ℚ
  confidence : ℚ
  created_at : ℤ
  deriving DecidableEq

/-- The dedup test in the save loop of `generate_insights`: a stored row
for this user with the same title, created within the current lookback
window (`created_at ≥ start_date`). -/
def insightMatch (uid : ℕ) (start_date : ℤ) (title : String)
    (i : Insight) : Bool :=
  i.user_id == uid && i.title == title && decide (start_date ≤ i.created_at)

/-- The persistence loop of `generate_insights` (lines 78-99 of
app/services/insights.py): for each generated insight, insert a row unless
a matching row already exists; `now` is the creation time stamped on new
rows.  The generated list `datas` abstracts the eight deterministic
detectors (identical logs produce identical `datas`). -/
def saveInsights (store : List Insight) (uid : ℕ) (start_date now : ℤ) :
    List InsightData → List Insight
  | [] => store
  | d :: rest =>
    let store' :=
      if store.any (insightMatch uid start_date d.title) then store
      else store ++
        [{ user_id := uid, category := d.category, title := d.title,
           message := d.message, insight_type := d.insight_type,
           severity := d.severity, impact_score := d.impact_score,
           confidence := d.confidence, created_at := now }]
    saveInsights store' uid start_date now rest

/-- Rows of `store` matching the dedup test for `(uid, title)` within the
window starting at `start_date`. -/
def countWindow (store : List Insight) (uid : ℕ) (start_date : ℤ)
    (title : String) : ℕ :=
  (store.filter (insightMatch uid start_date title)).length

/-! ### Concrete fixtures -/

/-- A daily log with the given date, work hours and productivity score;
the remaining fields at their schema defaults. -/
def mkLog (d : ℤ) (w : ℚ) (p : ℚ) : DailyLog :=
  { user_id := 1, log_date := d, work_hours := w, deep_work_hours := 0,
    tasks_completed := 0, tasks_planned := 0, interruptions := 0,
    focus_score := 5, energy_score := 5, stress_level := 5, sleep_hours := 7,
    exercise_minutes := 0, productivity_score := some p }

/-- Fourteen consecutive daily logs: the older half with work 6 and
productivity 70, the newer half with work 9 and productivity 50. -/
def logs14 : List DailyLog :=
  [mkLog 1 6 70, mkLog 2 6 70, mkLog 3 6 70, mkLog 4 6 70, mkLog 5 6 70,
   mkLog 6 6 70, mkLog 7 6 70, mkLog 8 9 50, mkLog 9 9 50, mkLog 10 9 50,
   mkLog 11 9 50, mkLog 12 9 50, mkLog 13 9 50, mkLog 14 9 50]

/-- An active goal, no progress, target 100, whose deadline is today. -/
def goalDeadlineToday : Goal :=
  { status := "active", current_value := 0, target_value := 100,
    start_date := -10, deadline := some 0 }

/-! ### Helper lemmas -/

/-- A list patched with a fallback element when empty is never empty. -/
theorem ite_nil_ne_nil {α : Type} [DecidableEq α] (l : List α) (x : α) :
    (if l = [] then [x] else l) ≠ [] := by
  split
  · simp
  · assumption

theorem generate_burnout_recommendations_ne_nil (wt ed sd ss pd : ℚ)
    (cat : String) (rsl rst : ℚ) :
    generate_burnout_recommendations wt ed sd ss pd cat rsl rst ≠ [] := by
  simp only [generate_burnout_recommendations]
  exact ite_nil_ne_nil _ _

/-- The banker's rounding never exceeds the ceiling. -/
theorem roundHalfEven_le_ceil (q : ℚ) : roundHalfEven q ≤ ⌈q⌉ := by
  have hfl : (⌊q⌋ : ℚ) ≤ q := Int.floor_le q
  have hcl : q ≤ (⌈q⌉ : ℚ) := Int.le_ceil q
  have hbase : ⌊q⌋ ≤ ⌈q⌉ := Int.floor_le_ceil q
  have hstep : (1 : ℚ) / 2 ≤ q - ⌊q⌋ → ⌊q⌋ + 1 ≤ ⌈q⌉ := by
    intro h
    have hlt : (⌊q⌋ : ℚ) < (⌈q⌉ : ℚ) := by linarith
    have : ⌊q⌋ < ⌈q⌉ := by exact_mod_cast hlt
    omega
  simp only [roundHalfEven]
  split_ifs with h1 h2 h3
  · exact hbase
  · exact hstep (by linarith)
  · exact hbase
  · exact hstep (by linarith)

/-- `round(x, 1)` never exceeds an integer bound on `x`. -/
theorem pyRound1_le_int (x : ℚ) (k : ℤ) (h : x ≤ (k : ℚ)) :
    pyRound1 x ≤ (k : ℚ) := by
  have h10 : (10 : ℚ) * x ≤ ((10 * k : ℤ) : ℚ) := by push_cast; linarith
  have h1 : roundHalfEven (10 * x) ≤ ⌈(10 : ℚ) * x⌉ := roundHalfEven_le_ceil _
  have h2 : ⌈(10 : ℚ) * x⌉ ≤ 10 * k := Int.ceil_le.mpr h10
  have h3 : (roundHalfEven (10 * x) : ℚ) ≤ ((10 * k : ℤ) : ℚ) := by
    exact_mod_cast le_trans h1 h2
  simp only [pyRound1]
  rw [div_le_iff₀ (by norm_num : (0 : ℚ) < 10)]
  push_cast at h3 ⊢
  linarith

/-! ### Claims -/

/-- Claim C6: `calculate_consistency_score` returns exactly 50.0 whenever
fewer than 3 daily logs exist in the trailing 7-day window. -/
theorem consistency_score_insufficient_logs_C6 (db : List DailyLog)
    (uid : ℕ) (target : ℤ)
    (h : (queryConsistencyWindow db uid target 7).length < 3) :
    calculate_consistency_score db uid target 7 = 50 := by
  simp only [calculate_consistency_score]
  rw [if_pos h]

theorem consistency_score_insufficient_logs_C6_witness :
    (queryConsistencyWindow [] 0 0 7).length < 3 ∧
      calculate_consistency_score [] 0 0 7 = 50 :=
  ⟨by decide, consistency_score_insufficient_logs_C6 [] 0 0 (by decide)⟩

/-- Claim C4: with fewer than 5 logs in the trailing 14-day window,
`calculate_burnout_risk` returns the neutral result — risk 0, category
"low", stable trend, all five component scores 0 and no risk factors. -/
theorem burnout_insufficient_logs_neutral_C4 (db : List DailyLog) (uid : ℕ)
    (target : ℤ) (prev : Option ℚ)
    (h : (queryBurnoutWindow db uid target).length < 5) :
    (calculate_burnout_risk_db db uid target prev).risk_score = 0 ∧
    (calculate_burnout_risk_db db uid target prev).risk_category = "low" ∧
    (calculate_burnout_risk_db db uid target prev).trend_direction = "stable" ∧
    (calculate_burnout_risk_db db uid target prev).workload_trend = 0 ∧
    (calculate_burnout_risk_db db uid target prev).energy_decline = 0 ∧
    (calculate_burnout_risk_db db uid target prev).sleep_deficit = 0 ∧
    (calculate_burnout_risk_db db uid target prev).stress_score = 0 ∧
    (calculate_burnout_risk_db db uid target prev).productivity_drop = 0 ∧
    (calculate_burnout_risk_db db uid target prev).trend_change = 0 ∧
    (calculate_burnout_risk_db db uid target prev).risk_factors = [] := by
  simp only [calculate_burnout_risk_db, calculate_burnout_risk]
  rw [if_pos h]
  exact ⟨rfl, rfl, rfl, rfl, rfl, rfl, rfl, rfl, rfl, rfl⟩

theorem burnout_insufficient_logs_neutral_C4_witness :
    (queryBurnoutWindow [] 0 0).length < 5 ∧
      (calculate_burnout_risk_db [] 0 0 none).risk_score = 0 ∧
      (calculate_burnout_risk_db [] 0 0 none).risk_category = "low" :=
  ⟨by decide,
    (burnout_insufficient_logs_neutral_C4 [] 0 0 none (by decide)).1,
    (burnout_insufficient_logs_neutral_C4 [] 0 0 none (by decide)).2.1⟩

/-- Claim C2 (counterexample): with no logs at all (fewer than 5 in the
window), `calculate_burnout_risk` returns an *empty* recommendations list,
refuting "the recommendations list is non-empty for every call". -/
theorem burnout_recommendations_empty_below_5_C2 :
    (calculate_burnout_risk [] none).recommendations = [] := by decide

/-- Claim C2 (amended): whenever at least 5 logs exist in the window, the
recommendations list of `calculate_burnout_risk` is non-empty — a
positive-reinforcement fallback is used when no threshold fires. -/
theorem burnout_recommendations_nonempty_C2 (logs : List DailyLog)
    (prev : Option ℚ) (h : 5 ≤ logs.length) :
    (calculate_burnout_risk logs prev).recommendations ≠ [] := by
  simp only [calculate_burnout_risk]
  rw [if_neg (by omega)]
  exact generate_burnout_recommendations_ne_nil _ _ _ _ _ _ _
    (mean ((logs.drop (logs.length / 2)).map (fun l => l.stress_level)))

theorem burnout_recommendations_nonempty_C2_witness :
    5 ≤ logs14.length ∧
      (calculate_burnout_risk logs14 none).recommendations ≠ [] :=
  ⟨by decide, burnout_recommendations_nonempty_C2 logs14 none (by decide)⟩

/-- Claim C3 (counterexample): for an active goal with no progress whose
deadline is today, the code returns 0.0 via its `days_remaining ≤ 0`
branch, while the claim's formula (floored at 5) yields 5.0. -/
theorem success_probability_claim_false_C3 :
    estimate_success_probability goalDeadlineToday 0 = 0 ∧
      successProbability_claim goalDeadlineToday 0 = 5 ∧
      estimate_success_probability goalDeadlineToday 0 ≠
        successProbability_claim goalDeadlineToday 0 := by
  have h1 : estimate_success_probability goalDeadlineToday 0 = 0 := by
    simp [estimate_success_probability, goalDeadlineToday, pyRound1, roundHalfEven]
  have h2 : successProbability_claim goalDeadlineToday 0 = 5 := by
    simp [successProbability_claim, goalDeadlineToday]
  refine ⟨h1, h2, ?_⟩
  rw [h1, h2]
  norm_num

/-- Claim C3 (amended): `_estimate_success_probability` returns 100 when
completed; else 50 when `target_value ≤ 0`; else `progress × 80` (rounded)
without a deadline; with a deadline, `progress × 100` (rounded) when
`days_remaining ≤ 0`, 50 when `total_days ≤ 0`, and otherwise
`min(pace × 70 + progress × 30, 99)` floored at 5 and rounded. -/
theorem success_probability_amended_C3 (goal : Goal) (today : ℤ) :
    estimate_success_probability goal today =
      successProbability_amended goal today := by
  simp only [estimate_success_probability, successProbability_amended]

/-- Claim C8: completed habit logs on days 1, 2 and 4 give a recomputed
current streak of 3 (gaps of at most 2 days are tolerated); adding a
completed log on day 7 (gap 3) resets the recomputed streak to 1. -/
theorem habit_streak_gap_tolerance_C8 :
    habitCurrentStreak [1, 2, 4] = 3 ∧ habitCurrentStreak [1, 2, 4, 7] = 1 := by
  decide

/-- Every streak row the code writes satisfies
`current_count ≤ longest_count`: the creation branch writes `1, 1` and the
update branch ends by raising `longest_count` to `current_count` whenever
it is exceeded.  This is the sense in which the claims' "existing streak
state" hypothesis below is justified. -/
theorem update_checkin_streak_invariant (s : Option Streak) (d : ℤ) :
    (update_checkin_streak s d).current_count ≤
      (update_checkin_streak s d).longest_count := by
  match s with
  | none => simp [update_checkin_streak]
  | some st =>
    simp only [update_checkin_streak]
    cases st.last_date <;> split_ifs <;> simp_all

/-- Claim C7: with a recorded `last_date`, a check-in `gap` days later
increments `current_count` when `gap = 1`, resets it to 1 (and
`start_date` to the new date) when `gap > 1`, leaves it unchanged when
`gap = 0`, and `longest_count` becomes the max of its old value and the
new `current_count` — i.e. it is raised exactly when exceeded. -/
theorem checkin_streak_update_C7 (st : Streak) (last d : ℤ)
    (h : st.last_date = some last) :
    ((d - last = 1 →
        (update_checkin_streak (some st) d).current_count = st.current_count + 1) ∧
      (1 < d - last →
        (update_checkin_streak (some st) d).current_count = 1 ∧
        (update_checkin_streak (some st) d).start_date = d) ∧
      (d - last = 0 →
        (update_checkin_streak (some st) d).current_count = st.current_count) ∧
      (update_checkin_streak (some st) d).longest_count =
        max st.longest_count (update_checkin_streak (some st) d).current_count) := by
  simp only [update_checkin_streak, h]
  split_ifs <;> simp_all <;> omega

theorem checkin_streak_update_C7_witness :
    ((6 : ℤ) - 5 = 1 →
      (update_checkin_streak
        (some { current_count := 2, longest_count := 3, start_date := 0,
                last_date := some 5, is_active := true }) 6).current_count = 2 + 1) ∧
    ((1 : ℤ) < 6 - 5 →
      (update_checkin_streak
        (some { current_count := 2, longest_count := 3, start_date := 0,
                last_date := some 5, is_active := true }) 6).current_count = 1 ∧
      (update_checkin_streak
        (some { current_count := 2, longest_count := 3, start_date := 0,
                last_date := some 5, is_active := true }) 6).start_date = 6) ∧
    ((6 : ℤ) - 5 = 0 →
      (update_checkin_streak
        (some { current_count := 2, longest_count := 3, start_date := 0,
                last_date := some 5, is_active := true }) 6).current_count = 2) ∧
    (update_checkin_streak
      (some { current_count := 2, longest_count := 3, start_date := 0,
              last_date := some 5, is_active := true }) 6).longest_count =
      max 3 (update_checkin_streak
        (some { current_count := 2, longest_count := 3, start_date := 0,
                last_date := some 5, is_active := true }) 6).current_count :=
  checkin_streak_update_C7
    { current_count := 2, longest_count := 3, start_date := 0,
      last_date := some 5, is_active := true } 5 6 rfl

/-- Claim C10: a check-in dated strictly before the recorded `last_date`
changes none of `current_count`, `longest_count`, `start_date` or
`is_active`, but still overwrites `last_date` with the earlier submitted
date, moving it backwards (stated for streak states satisfying the stored
invariant `current_count ≤ longest_count`, which every row the code
creates or updates satisfies, by `update_checkin_streak_invariant`). -/
theorem checkin_streak_backdate_C10 (st : Streak) (last d : ℤ)
    (hld : st.last_date = some last) (hneg : d - last < 0)
    (hinv : st.current_count ≤ st.longest_count) :
    (update_checkin_streak (some st) d).current_count = st.current_count ∧
    (update_checkin_streak (some st) d).longest_count = st.longest_count ∧
    (update_checkin_streak (some st) d).start_date = st.start_date ∧
    (update_checkin_streak (some st) d).is_active = st.is_active ∧
    (update_checkin_streak (some st) d).last_date = some d := by
  simp only [update_checkin_streak, hld]
  split_ifs <;> simp_all <;> omega

theorem checkin_streak_backdate_C10_witness :
    (update_checkin_streak
      (some { current_count := 2, longest_count := 3, start_date := 0,
              last_date := some 5, is_active := true }) 3).current_count = 2 ∧
    (update_checkin_streak
      (some { current_count := 2, longest_count := 3, start_date := 0,
              last_date := some 5, is_active := true }) 3).longest_count = 3 ∧
    (update_checkin_streak
      (some { current_count := 2, longest_count := 3, start_date := 0,
              last_date := some 5, is_active := true }) 3).start_date = 0 ∧
    (update_checkin_streak
      (some { current_count := 2, longest_count := 3, start_date := 0,
              last_date := some 5, is_active := true }) 3).is_active = true ∧
    (update_checkin_streak
      (some { current_count := 2, longest_count := 3, start_date := 0,
              last_date := some 5, is_active := true }) 3).last_date = some 3 :=
  checkin_streak_backdate_C10
    { current_count := 2, longest_count := 3, start_date := 0,
      last_date := some 5, is_active := true } 5 3 rfl (by decide) (by decide)

/-- Claim C9: under the schema's validation bounds (energy and stress in
1..10, sleep hours and exercise minutes non-negative) the energy index
never exceeds 90: the weighted contributions max out at 40 + 30 + 18 + 2. -/
theorem energy_index_le_90_C9 (log : DailyLog)
    (he1 : 1 ≤ log.energy_score) (he2 : log.energy_score ≤ 10)
    (hs1 : 1 ≤ log.stress_level) (hs2 : log.stress_level ≤ 10)
    (hsl : 0 ≤ log.sleep_hours) (hex : 0 ≤ log.exercise_minutes) :
    calculate_energy_index log ≤ 90 := by
  simp only [calculate_energy_index]
  refine le_trans (pyRound1_le_int _ 90 ?_) (by norm_num)
  refine le_trans (min_le_left _ _) (max_le ?_ (by norm_num))
  have h1 := min_le_right (log.sleep_hours / 8) (1 : ℚ)
  have h2 := min_le_right (log.exercise_minutes / 60) (1 : ℚ)
  push_cast
  linarith

theorem energy_index_le_90_C9_witness :
    (1 ≤ (mkLog 1 6 70).energy_score ∧ (mkLog 1 6 70).energy_score ≤ 10 ∧
      1 ≤ (mkLog 1 6 70).stress_level ∧ (mkLog 1 6 70).stress_level ≤ 10 ∧
      0 ≤ (mkLog 1 6 70).sleep_hours ∧ 0 ≤ (mkLog 1 6 70).exercise_minutes) ∧
    calculate_energy_index (mkLog 1 6 70) ≤ 90 :=
  ⟨⟨by decide, by decide, by decide, by decide, by decide, by decide⟩,
    energy_index_le_90_C9 (mkLog 1 6 70) (by decide) (by decide) (by decide)
      (by decide) (by decide) (by decide)⟩

/-- Claim C1 (counterexample): for the 14-day window of `logs14` — second
half mean work 9 / productivity 50, first half mean work 6 /
productivity 70 — the workload trend is 35, not above 40, and no
"High Workload" risk factor is emitted; the claimed conjunction fails. -/
theorem burnout_workload_claim_false_C1 :
    ¬(40 < (calculate_burnout_risk logs14 none).workload_trend ∧
      "High Workload" ∈
        (calculate_burnout_risk logs14 none).risk_factors.map RiskFactor.factor) := by
  have hwt : (calculate_burnout_risk logs14 none).workload_trend = 35 := by
    simp only [calculate_burnout_risk]
    rw [if_neg (by decide)]
    norm_num [logs14, mkLog, mean, pyOr50, pyRound1, roundHalfEven,
      max_def, min_def]
  rintro ⟨hgt, -⟩
  rw [hwt] at hgt
  norm_num at hgt

/-- Claim C1 (amended): for any 14 logs in the window whose first (older)
half has mean work hours 6 and mean productivity 70 while the second
(newer) half has mean work hours 9 and mean productivity 50, the workload
trend is exactly 35 — hence not above 40 — and the risk-factor list
contains no "High Workload" entry. -/
theorem burnout_workload_trend_35_C1 (logs : List DailyLog) (prev : Option ℚ)
    (hlen : logs.length = 14)
    (hw1 : mean ((logs.take 7).map (fun l => l.work_hours)) = 6)
    (hw2 : mean ((logs.drop 7).map (fun l => l.work_hours)) = 9)
    (hp1 : mean ((logs.take 7).map (fun l => pyOr50 l.productivity_score)) = 70)
    (hp2 : mean ((logs.drop 7).map (fun l => pyOr50 l.productivity_score)) = 50) :
    (calculate_burnout_risk logs prev).workload_trend = 35 ∧
      ∀ rf ∈ (calculate_burnout_risk logs prev).risk_factors,
        rf.factor ≠ "High Workload" := by
  have h5 : ¬ logs.length < 5 := by omega
  have hmid : logs.length / 2 = 7 := by omega
  simp only [calculate_burnout_risk]
  rw [if_neg h5]
  simp only [hmid, hw1, hw2, hp1, hp2]
  constructor
  · norm_num [pyRound1, roundHalfEven, max_def, min_def]
  · intro rf hrf
    rw [if_neg (by norm_num [max_def, min_def])] at hrf
    simp only [List.nil_append, List.mem_append] at hrf
    rcases hrf with ((h | h) | h) | h <;>
      split_ifs at h <;> simp_all

theorem burnout_workload_trend_35_C1_witness :
    logs14.length = 14 ∧
      (calculate_burnout_risk logs14 none).workload_trend = 35 ∧
      ∀ rf ∈ (calculate_burnout_risk logs14 none).risk_factors,
        rf.factor ≠ "High Workload" :=
  ⟨by decide,
    burnout_workload_trend_35_C1 logs14 none (by decide)
      (by norm_num [logs14, mkLog, mean])
      (by norm_num [logs14, mkLog, mean])
      (by norm_num [logs14, mkLog, mean, pyOr50])
      (by norm_num [logs14, mkLog, mean, pyOr50])⟩

/-! ### Insight dedup lemmas -/

/-- The save loop never removes rows. -/
theorem saveInsights_mem (uid : ℕ) (start now : ℤ) (datas : List InsightData)
    (store : List Insight) (i : Insight) (h : i ∈ store) :
    i ∈ saveInsights store uid start now datas := by
  induction datas generalizing store with
  | nil => simpa [saveInsights] using h
  | cons d0 rest ih =>
    simp only [saveInsights]
    split
    · exact ih store h
    · exact ih _ (List.mem_append_left _ h)

/-- A row seen by `any` keeps being seen after more saving. -/
theorem saveInsights_any_mono (uid : ℕ) (start now : ℤ)
    (datas : List InsightData) (store : List Insight) (p : Insight → Bool)
    (h : store.any p = true) :
    (saveInsights store uid start now datas).any p = true := by
  rw [List.any_eq_true] at h ⊢
  obtain ⟨i, hi, hp⟩ := h
  exact ⟨i, saveInsights_mem uid start now datas store i hi, hp⟩

/-- After a run whose creation stamp lies inside the lookback window,
every generated title has a matching row in the resulting store. -/
theorem saveInsights_covers (uid : ℕ) (start now : ℤ) (hnow : start ≤ now)
    (datas : List InsightData) (store : List Insight) :
    ∀ d ∈ datas,
      (saveInsights store uid start now datas).any
        (insightMatch uid start d.title) = true := by
  induction datas generalizing store with
  | nil => intro d hd; simp at hd
  | cons d0 rest ih =>
    intro d hd
    simp only [saveInsights]
    rcases List.mem_cons.mp hd with rfl | hd'
    · apply saveInsights_any_mono
      split_ifs with hc
      · exact hc
      · rw [List.any_eq_true]
        refine ⟨_, List.mem_append_right _ (List.mem_singleton_self _), ?_⟩
        simp [insightMatch, hnow]
    · exact ih _ d hd'

/-- When every generated title already has a matching row in the window,
the save loop inserts nothing. -/
theorem saveInsights_of_covered (uid : ℕ) (start now : ℤ)
    (datas : List InsightData) (store : List Insight)
    (h : ∀ d ∈ datas, store.any (insightMatch uid start d.title) = true) :
    saveInsights store uid start now datas = store := by
  induction datas with
  | nil => rfl
  | cons d0 rest ih =>
    simp only [saveInsights]
    rw [if_pos (h d0 (List.mem_cons_self _ _))]
    exact ih (fun d hd => h d (List.mem_cons_of_mem _ hd))

theorem countWindow_append (store : List Insight) (i : Insight) (uid : ℕ)
    (start : ℤ) (t : String) :
    countWindow (store ++ [i]) uid start t =
      countWindow store uid start t +
        (if insightMatch uid start t i then 1 else 0) := by
  simp only [countWindow, List.filter_append, List.length_append]
  split_ifs with h <;> simp [List.filter, h]

theorem countWindow_eq_zero (store : List Insight) (uid : ℕ) (start : ℤ)
    (t : String) (h : store.any (insightMatch uid start t) = false) :
    countWindow store uid start t = 0 := by
  simp only [countWindow, List.length_eq_zero, List.filter_eq_nil_iff]
  intro i hi
  rw [List.any_eq_false] at h
  exact h i hi

/-- Within one window, the save loop keeps at most one matching row per
`(user, title)`. -/
theorem saveInsights_countWindow_le_one (uid : ℕ) (start now : ℤ)
    (hnow : start ≤ now) (t : String) (datas : List InsightData)
    (store : List Insight) (h : countWindow store uid start t ≤ 1) :
    countWindow (saveInsights store uid start now datas) uid start t ≤ 1 := by
  induction datas generalizing store with
  | nil => exact h
  | cons d0 rest ih =>
    simp only [saveInsights]
    apply ih
    split_ifs with hc
    · exact h
    · rw [countWindow_append]
      split_ifs with hm
      · have ht : d0.title = t := by
          simp only [insightMatch, Bool.and_eq_true, beq_iff_eq,
            decide_eq_true_eq] at hm
          exact hm.1.2
        have h0 : countWindow store uid start t = 0 := by
          refine countWindow_eq_zero _ _ _ _ ?_
          rw [← ht]
          simpa using hc
        omega
      · omega

/-- When a generated title has no matching row in the current window, the
save loop inserts a fresh row carrying the current creation stamp. -/
theorem saveInsights_inserts (uid : ℕ) (start now : ℤ) (hnow : start ≤ now)
    (t : String) (datas : List InsightData) (store : List Insight)
    (hex : ∃ d ∈ datas, d.title = t)
    (hnone : store.any (insightMatch uid start t) = false) :
    ∃ i ∈ saveInsights store uid start now datas,
      insightMatch uid start t i = true ∧ i.created_at = now := by
  induction datas generalizing store with
  | nil =>
    obtain ⟨d, hd, -⟩ := hex
    simp at hd
  | cons d0 rest ih =>
    simp only [saveInsights]
    by_cases ht0 : d0.title = t
    · rw [ht0, if_neg (by simp [hnone])]
      refine ⟨_, saveInsights_mem uid start now rest _ _
        (List.mem_append_right _ (List.mem_singleton_self _)), ?_, rfl⟩
      simp [insightMatch, ht0, hnow]
    · have hex' : ∃ d ∈ rest, d.title = t := by
        obtain ⟨d, hd, hdt⟩ := hex
        rcases List.mem_cons.mp hd with rfl | h'
        · exact absurd hdt ht0
        · exact ⟨d, h', hdt⟩
      apply ih _ hex'
      split_ifs with hc
      · exact hnone
      · simp [List.any_append, hnone, insightMatch, ht0]

/-- Claim C5: running the insight save loop twice over the same 30-day
lookback window with the same generated insights (identical trigger
conditions) inserts nothing on the second run and leaves at most one
stored row per `(user, title)` within the window; once the window has
rolled past the earlier row's creation time, the same title is inserted
again with the new creation stamp. -/
theorem generate_insights_dedup_C5 (store : List Insight) (uid : ℕ)
    (start1 now1 now2 start2 now3 : ℤ) (datas : List InsightData)
    (t : String) (d : InsightData)
    (h1 : start1 ≤ now1) (hd : d ∈ datas)
    (hzero : countWindow store uid start1 t = 0)
    (hroll : (saveInsights store uid start1 now1 datas).any
      (insightMatch uid start2 d.title) = false)
    (h3 : start2 ≤ now3) :
    saveInsights (saveInsights store uid start1 now1 datas) uid start1 now2
        datas = saveInsights store uid start1 now1 datas
    ∧ countWindow (saveInsights store uid start1 now1 datas) uid start1 t ≤ 1
    ∧ ∃ i ∈ saveInsights (saveInsights store uid start1 now1 datas) uid
          start2 now3 datas,
        insightMatch uid start2 d.title i = true ∧ i.created_at = now3 := by
  refine ⟨?_, ?_, ?_⟩
  · exact saveInsights_of_covered uid start1 now2 datas _
      (saveInsights_covers uid start1 now1 h1 datas store)
  · exact saveInsights_countWindow_le_one uid start1 now1 h1 t datas store
      (by omega)
  · exact saveInsights_inserts uid start2 now3 h3 d.title datas _
      ⟨d, hd, rfl⟩ hroll

/-- A concrete generated insight used to witness the dedup claim. -/
def insightT : InsightData :=
  { category := "sleep", title := "Sleep boosts your productivity",
    message := "m", insight_type := "observation", severity := "info",
    impact_score := none, confidence := 7 }

theorem generate_insights_dedup_C5_witness :
    saveInsights (saveInsights [] 0 0 0 [insightT]) 0 0 5 [insightT]
        = saveInsights [] 0 0 0 [insightT]
    ∧ countWindow (saveInsights [] 0 0 0 [insightT]) 0 0
        insightT.title ≤ 1
    ∧ ∃ i ∈ saveInsights (saveInsights [] 0 0 0 [insightT]) 0 40 40
          [insightT],
        insightMatch 0 40 insightT.title i = true ∧ i.created_at = 40 :=
  generate_insights_dedup_C5 [] 0 0 0 5 40 40 [insightT] insightT.title
    insightT (by decide) (List.mem_singleton_self _) (by decide)
    (by decide) (by decide)

end HabitBackend
